import Mathlib

/-!
Shallow embedding of the core pipeline of `tubesrestaurant.py`, a Streamlit
dashboard over a restaurant CSV: the loader/normalizer (`load_data`,
lines 165-183), the sidebar-driven filter mask (lines 245-261), and the
aggregates computed over the filtered subset (map center at lines 282-283,
the four metrics at lines 317-320, and the availability frequency tables at
lines 326-327).  Pandas column operations are row-local, so each is embedded
as a per-row function mapped/filtered over a `List` of rows; NaN cells are
embedded as `none`.
-/

namespace TubesRestaurant

/-- The four price categories produced by `price_mapping`
(`{"$": "Budget", "$$": "Mid-range", "$$$": "Expensive", "$$$$": "Luxury"}`). -/
inductive PriceCat
  | budget
  | midRange
  | expensive
  | luxury
deriving DecidableEq

/-- The availability labels produced by `bool_mapping` (`{True: "Yes", False: "No"}`). -/
inductive Avail
  | yes
  | no
deriving DecidableEq

/-- The three options of the `Pickup Available?` / `Delivery Available?`
selectboxes: `["All", "Yes", "No"]` (the spec calls `All` `Any`). -/
inductive Req
  | all
  | yes
  | no
deriving DecidableEq

/-- A raw CSV cell as seen after `pd.read_csv`: a parsed number, a text value,
a parsed boolean, or a missing entry (NaN). -/
inductive Cell
  | num (q : ℚ)
  | str (s : String)
  | boolv (b : Bool)
  | na
deriving DecidableEq

/-- One row of the normalized table produced by `load_data`: price and
availability already mapped to their categorical labels, the three numeric
columns already coerced, with `none` embedding a NaN entry. -/
structure Row where
  name : Option String
  latitude : Option ℚ
  longitude : Option ℚ
  averageRating : Option ℚ
  priceRange : Option PriceCat
  asapPickupAvailable : Option Avail
  asapDeliveryAvailable : Option Avail
  asapDeliveryTimeMinutes : Option ℚ
  asapPickupMinutes : Option ℚ
  displayAddress : Option String
deriving DecidableEq

/-- The sidebar state read at lines 218-235, i.e. the spec's `FilterCriteria`:
`search_query` (text input), `selected_price` (multiselect), `max_rating`
(slider), `selected_del_time` / `selected_pick_time` (sliders),
`selected_pickup` / `selected_delivery` (selectboxes). -/
structure Criteria where
  search_query : String
  selected_price : List PriceCat
  max_rating : ℚ
  selected_del_time : ℚ
  selected_pick_time : ℚ
  selected_pickup : Req
  selected_delivery : Req
deriving DecidableEq

/-- Pandas `series <= bound` on a float column: a NaN entry compares as False. -/
def leNA (v : Option ℚ) (bound : ℚ) : Bool :=
  match v with
  | some x => decide (x ≤ bound)
  | none => false

/-- Pandas `series.isin(values)` on the mapped price column: a NaN entry is a
member of no list of labels. -/
def isinNA (v : Option PriceCat) (values : List PriceCat) : Bool :=
  match v with
  | some p => decide (p ∈ values)
  | none => false

/-- Pandas `series == label` on the mapped availability column: a NaN entry
equals no label. -/
def eqNA (v : Option Avail) (label : Avail) : Bool :=
  match v with
  | some a => decide (a = label)
  | none => false

/-- The availability label a non-`All` selectbox choice compares against. -/
def reqLabel : Req → Avail
  | .no => Avail.no
  | _ => Avail.yes

/-- Pandas `.astype(str)` at line 259 renders a NaN entry as the literal
string `nan`. -/
def astypeStr : Option String → String
  | some s => s
  | none => "nan"

/-- ASCII whitespace, as removed by Python's `str.strip()`. -/
def isSpaceChar (ch : Char) : Bool :=
  ch == ' ' || ch == '\t' || ch == '\n' || ch == '\r'

/-- Drop leading whitespace from a character list. -/
def dropLeadingSpace : List Char → List Char
  | [] => []
  | ch :: t => if isSpaceChar ch then dropLeadingSpace t else ch :: t

/-- Python `str.strip()`: remove leading and trailing whitespace. -/
def pyStrip (s : String) : String :=
  ⟨(dropLeadingSpace (dropLeadingSpace s.data).reverse).reverse⟩

/-- Boolean test that `pat` is a prefix of `l` (character lists). -/
def prefixChars : List Char → List Char → Bool
  | [], _ => true
  | _ :: _, [] => false
  | a :: as, b :: bs => a == b && prefixChars as bs

/-- Boolean test that `pat` occurs as a contiguous sublist of `l`. -/
def infixChars (pat : List Char) : List Char → Bool
  | [] => pat.isEmpty
  | b :: bs => prefixChars pat (b :: bs) || infixChars pat bs

/-- Case-insensitive containment, embedding
`str.contains(search_query, case=False, na=False)` at line 259 for patterns
free of regex metacharacters (pandas treats the pattern as a regular
expression; on metacharacter-free patterns this is literal substring search,
and `case=False` is ASCII-case-insensitive matching). -/
def strContainsCI (hay pat : String) : Bool :=
  infixChars (pat.data.map Char.toLower) (hay.data.map Char.toLower)

/-- The base mask of lines 245-250: the four always-on clauses. -/
def maskBase (c : Criteria) (r : Row) : Bool :=
  leNA r.averageRating c.max_rating
    && isinNA r.priceRange c.selected_price
    && leNA r.asapDeliveryTimeMinutes c.selected_del_time
    && leNA r.asapPickupMinutes c.selected_pick_time

/-- Lines 252-253: `if selected_pickup != "All": mask = mask & (col == selected_pickup)`. -/
def maskAfterPickup (c : Criteria) (r : Row) : Bool :=
  if c.selected_pickup ≠ Req.all then
    maskBase c r && eqNA r.asapPickupAvailable (reqLabel c.selected_pickup)
  else maskBase c r

/-- Lines 255-256: the delivery-availability conditional clause. -/
def maskAfterDelivery (c : Criteria) (r : Row) : Bool :=
  if c.selected_delivery ≠ Req.all then
    maskAfterPickup c r && eqNA r.asapDeliveryAvailable (reqLabel c.selected_delivery)
  else maskAfterPickup c r

/-- Lines 258-259: `if search_query.strip(): mask = mask & contains(...)`;
the full per-row mask of lines 245-261. -/
def rowMask (c : Criteria) (r : Row) : Bool :=
  if pyStrip c.search_query ≠ "" then
    maskAfterDelivery c r && strContainsCI (astypeStr r.name) c.search_query
  else maskAfterDelivery c r

/-- Line 261: `filtered = data[mask]`. -/
def applyFilter (data : List Row) (c : Criteria) : List Row :=
  data.filter (fun r => rowMask c r)

/-- One raw CSV row, before the normalization of `load_data`: coordinates are
float columns with possible NaN; the rating, price, availability and duration
columns are still raw cells. -/
structure RawRow where
  name : Option String
  latitude : Option ℚ
  longitude : Option ℚ
  averageRating : Cell
  priceRange : Cell
  asapPickupAvailable : Cell
  asapDeliveryAvailable : Cell
  asapDeliveryTimeMinutes : Cell
  asapPickupMinutes : Cell
  displayAddress : Option String
deriving DecidableEq

/-- Line 170-171: `df["priceRange"].map(price_mapping)`; a value outside the
four symbols maps to NaN. -/
def price_mapping : Cell → Option PriceCat
  | .str "$" => some PriceCat.budget
  | .str "$$" => some PriceCat.midRange
  | .str "$$$" => some PriceCat.expensive
  | .str "$$$$" => some PriceCat.luxury
  | _ => none

/-- Lines 173-175: `bool_mapping = {True: "Yes", False: "No"}`; any non-boolean
cell maps to NaN. -/
def bool_mapping : Cell → Option Avail
  | .boolv true => some Avail.yes
  | .boolv false => some Avail.no
  | _ => none

/-- Lines 179-181: `pd.to_numeric(col, errors="coerce")`: numeric cells pass
through, every other cell becomes NaN (`pd.read_csv` already parsed numeric
literals into numbers, so a remaining text cell fails coercion). -/
def to_numeric : Cell → Option ℚ
  | .num q => some q
  | _ => none

/-- The per-row effect of the column maps of lines 170-181 (each is row-local,
so the whole-column `map`/`to_numeric` calls compose to this). -/
def normalizeRow (r : RawRow) : Row :=
  { name := r.name
    latitude := r.latitude
    longitude := r.longitude
    averageRating := to_numeric r.averageRating
    priceRange := price_mapping r.priceRange
    asapPickupAvailable := bool_mapping r.asapPickupAvailable
    asapDeliveryAvailable := bool_mapping r.asapDeliveryAvailable
    asapDeliveryTimeMinutes := to_numeric r.asapDeliveryTimeMinutes
    asapPickupMinutes := to_numeric r.asapPickupMinutes
    displayAddress := r.displayAddress }

/-- Lines 166-183: `load_data` — normalize the mapped columns and
`dropna(subset=["latitude", "longitude"])` (line 178).  The drop only
inspects the coordinate columns, so it commutes with the row-local column
maps and is expressed here as a filter before the per-row normalization. -/
def load_data (raw : List RawRow) : List Row :=
  (raw.filter (fun r => r.latitude.isSome && r.longitude.isSome)).map normalizeRow

/-- Line 220: `price_order = ["Budget", "Mid-range", "Expensive", "Luxury"]`. -/
def price_order : List PriceCat :=
  [PriceCat.budget, PriceCat.midRange, PriceCat.expensive, PriceCat.luxury]

/-- Line 221: `available_prices = [p for p in price_order if p in data["priceRange"].dropna().unique()]`. -/
def available_prices (data : List Row) : List PriceCat :=
  price_order.filter (fun p => data.any (fun r => decide (r.priceRange = some p)))

/-- Pandas `series.max()` over a float column restricted to its non-NaN
entries, with the slider's fallback 0 when there are none (lines 226-232). -/
def colMax (l : List (Option ℚ)) : ℚ :=
  (l.filterMap id).foldr max 0

/-- Pandas `Series.mean()`: the arithmetic mean of the non-NaN entries, and
NaN when there are none (also when the series is empty). -/
def seriesMean (l : List (Option ℚ)) : Option ℚ :=
  if l.filterMap id = [] then none
  else some ((l.filterMap id).sum / ((l.filterMap id).length : ℚ))

/-- Python `int(x)` on a float: truncation toward zero. -/
def intTrunc (q : ℚ) : ℤ :=
  if 0 ≤ q then q.floor else q.ceil

/-- Whether an `Except` computation succeeded. -/
def exceptOk : Except String α → Bool
  | .ok _ => true
  | .error _ => false

/-- Line 318: `f"{filtered['averageRating'].mean():.2f}" if not filtered.empty else "0"`.
The empty case displays `0`; a NaN mean formats as the text `nan` without
raising, embedded as `ok none`.  This path never raises. -/
def avgRatingMetric (s : List Row) : Except String (Option ℚ) :=
  if s.isEmpty then Except.ok (some 0)
  else Except.ok (seriesMean (s.map (fun r => r.averageRating)))

/-- Line 319: `f"{int(filtered['asapDeliveryTimeMinutes'].mean())} min" if not filtered.empty else "0"`.
On a non-empty frame whose column is all-NaN the mean is NaN and `int(NaN)`
raises `ValueError`. -/
def avgDeliveryMetric (s : List Row) : Except String ℤ :=
  if s.isEmpty then Except.ok 0
  else
    match seriesMean (s.map (fun r => r.asapDeliveryTimeMinutes)) with
    | some m => Except.ok (intTrunc m)
    | none => Except.error "cannot convert float NaN to integer"

/-- Line 320: the pickup-minutes metric, same shape as the delivery one. -/
def avgPickupMetric (s : List Row) : Except String ℤ :=
  if s.isEmpty then Except.ok 0
  else
    match seriesMean (s.map (fun r => r.asapPickupMinutes)) with
    | some m => Except.ok (intTrunc m)
    | none => Except.error "cannot convert float NaN to integer"

/-- Pandas `Series.value_counts()` on a Yes/No availability column
(lines 326-327): counts of the values that occur, most frequent first, with
NaN entries dropped (the default `dropna=True`) — there is no bucket for
absent entries. -/
def value_counts (l : List (Option Avail)) : List (Avail × ℕ) :=
  (if (l.filter (fun x => decide (x = some Avail.no))).length
        > (l.filter (fun x => decide (x = some Avail.yes))).length then
      [(Avail.no, (l.filter (fun x => decide (x = some Avail.no))).length),
        (Avail.yes, (l.filter (fun x => decide (x = some Avail.yes))).length)]
    else
      [(Avail.yes, (l.filter (fun x => decide (x = some Avail.yes))).length),
        (Avail.no, (l.filter (fun x => decide (x = some Avail.no))).length)]).filter
    (fun p => decide (p.2 ≠ 0))

/-- Line 326: `pickup_counts = filtered["asapPickupAvailable"].value_counts()`. -/
def pickup_counts (s : List Row) : List (Avail × ℕ) :=
  value_counts (s.map (fun r => r.asapPickupAvailable))

/-- Line 327: `delivery_counts = filtered["asapDeliveryAvailable"].value_counts()`. -/
def delivery_counts (s : List Row) : List (Avail × ℕ) :=
  value_counts (s.map (fun r => r.asapDeliveryAvailable))

/-- Line 282: `latitude=filtered["latitude"].mean() if not filtered.empty else 29.76`
(`none` embeds a NaN mean, possible only if every latitude in the subset is NaN). -/
def mapCenterLat (s : List Row) : Option ℚ :=
  if s.isEmpty then some (29.76 : ℚ)
  else seriesMean (s.map (fun r => r.latitude))

/-- Line 283: `longitude=filtered["longitude"].mean() if not filtered.empty else -95.36`. -/
def mapCenterLong (s : List Row) : Option ℚ :=
  if s.isEmpty then some (-95.36 : ℚ)
  else seriesMean (s.map (fun r => r.longitude))

/-- The seven predicate clauses of the mask as one flat conjunction, with the
source's per-clause semantics (the conditional clauses written as inline
conditionals); used to relate the sequentially built `rowMask` to the
specification's clause list. -/
def flatClauses (c : Criteria) (r : Row) : Bool :=
  leNA r.averageRating c.max_rating
    && isinNA r.priceRange c.selected_price
    && leNA r.asapDeliveryTimeMinutes c.selected_del_time
    && leNA r.asapPickupMinutes c.selected_pick_time
    && (if c.selected_pickup = Req.all then true
        else eqNA r.asapPickupAvailable (reqLabel c.selected_pickup))
    && (if c.selected_delivery = Req.all then true
        else eqNA r.asapDeliveryAvailable (reqLabel c.selected_delivery))
    && (if pyStrip c.search_query = "" then true
        else strContainsCI (astypeStr r.name) c.search_query)

/-- The first six clauses of `flatClauses` (everything except the name-query
clause), used to state the name clause's role in isolation. -/
def firstSixClauses (c : Criteria) (r : Row) : Bool :=
  leNA r.averageRating c.max_rating
    && isinNA r.priceRange c.selected_price
    && leNA r.asapDeliveryTimeMinutes c.selected_del_time
    && leNA r.asapPickupMinutes c.selected_pick_time
    && (if c.selected_pickup = Req.all then true
        else eqNA r.asapPickupAvailable (reqLabel c.selected_pickup))
    && (if c.selected_delivery = Req.all then true
        else eqNA r.asapDeliveryAvailable (reqLabel c.selected_delivery))

/-- Modelled from the spec: the seven predicate clauses exactly as section 4.2
words them, for comparison against the source mask.  It differs from the
source in the name clause: the spec fires the clause whenever `nameQuery` is
non-empty (the source tests the whitespace-stripped query), matches within the
actual `name`, and says an absent `name` never matches (the source matches
within `astype(str)`'s rendering, where an absent name is the text `nan`). -/
def specSevenClauses (c : Criteria) (r : Row) : Bool :=
  leNA r.averageRating c.max_rating
    && isinNA r.priceRange c.selected_price
    && leNA r.asapDeliveryTimeMinutes c.selected_del_time
    && leNA r.asapPickupMinutes c.selected_pick_time
    && (if c.selected_pickup = Req.all then true
        else eqNA r.asapPickupAvailable (reqLabel c.selected_pickup))
    && (if c.selected_delivery = Req.all then true
        else eqNA r.asapDeliveryAvailable (reqLabel c.selected_delivery))
    && (if c.search_query = "" then true
        else match r.name with
          | some s => strContainsCI s c.search_query
          | none => false)

/-- The "no constraints" criteria of the spec's round-trip property: empty
query, all available price categories selected, the rating and minute bounds
at the data maxima, both availability selections `All`. -/
def noConstraint (data : List Row) : Criteria :=
  { search_query := ""
    selected_price := available_prices data
    max_rating := colMax (data.map (fun r => r.averageRating))
    selected_del_time := colMax (data.map (fun r => r.asapDeliveryTimeMinutes))
    selected_pick_time := colMax (data.map (fun r => r.asapPickupMinutes))
    selected_pickup := Req.all
    selected_delivery := Req.all }

/-- A row with every column present, used as a concrete test fixture. -/
def fullRow : Row :=
  { name := some "Alpha Cafe"
    latitude := some 1
    longitude := some 2
    averageRating := some 4
    priceRange := some PriceCat.budget
    asapPickupAvailable := some Avail.yes
    asapDeliveryAvailable := some Avail.no
    asapDeliveryTimeMinutes := some 20
    asapPickupMinutes := some 10
    displayAddress := some "Main St" }

/-- Criteria that constrain nothing on `fullRow`-like fixtures. -/
def openCrit : Criteria :=
  { search_query := ""
    selected_price := price_order
    max_rating := 5
    selected_del_time := 100
    selected_pick_time := 100
    selected_pickup := Req.all
    selected_delivery := Req.all }

/-- Fixture: `openCrit` with a whitespace-only search query. -/
def blankQueryCrit : Criteria :=
  { openCrit with search_query := " " }

/-- Fixture: a passing row whose name has no space, so a one-space query
cannot occur in it. -/
def spacelessRow : Row :=
  { fullRow with name := some "Alpha" }

/-- Fixture: `openCrit` searching for the text `nan`. -/
def nanQueryCrit : Criteria :=
  { openCrit with search_query := "nan" }

/-- Fixture: a passing row with an absent name. -/
def noNameRow : Row :=
  { fullRow with name := none }

/-- Fixture: a passing row named `CAFE Luna` (the spec's case-insensitivity
example). -/
def cafeRow : Row :=
  { fullRow with name := some "CAFE Luna" }

/-- Fixture: `openCrit` searching for `cafe`. -/
def cafeCrit : Criteria :=
  { openCrit with search_query := "cafe" }

/-- Fixture: `fullRow` with an absent rating. -/
def noneRatingRow : Row :=
  { fullRow with averageRating := none }

/-- Fixture: `fullRow` with absent pickup availability. -/
def noPickupRow : Row :=
  { fullRow with asapPickupAvailable := none }

/-- Fixture: `fullRow` with absent delivery minutes. -/
def noDeliveryRow : Row :=
  { fullRow with asapDeliveryTimeMinutes := none }

/-- Fixture rows for the map-center mean. -/
def rowA : Row :=
  { fullRow with latitude := some 1, longitude := some 2 }

/-- Second fixture row for the map-center mean. -/
def rowB : Row :=
  { fullRow with latitude := some 3, longitude := some 4 }

/-- The first example row of the spec's conjunction-correctness property. -/
def exRow1 : Row :=
  { name := some "Row One"
    latitude := some 0
    longitude := some 0
    averageRating := some 4
    priceRange := some PriceCat.budget
    asapPickupAvailable := some Avail.yes
    asapDeliveryAvailable := some Avail.yes
    asapDeliveryTimeMinutes := some 20
    asapPickupMinutes := some 10
    displayAddress := none }

/-- The second example row of the spec's conjunction-correctness property. -/
def exRow2 : Row :=
  { name := some "Row Two"
    latitude := some 0
    longitude := some 0
    averageRating := some (Rat.mk' 24 5)
    priceRange := some PriceCat.luxury
    asapPickupAvailable := some Avail.no
    asapDeliveryAvailable := some Avail.yes
    asapDeliveryTimeMinutes := some 50
    asapPickupMinutes := some 5
    displayAddress := none }

/-- The example criteria of the spec's conjunction-correctness property. -/
def exCrit : Criteria :=
  { search_query := ""
    selected_price := [PriceCat.budget, PriceCat.luxury]
    max_rating := Rat.mk' 9 2
    selected_del_time := 30
    selected_pick_time := 15
    selected_pickup := Req.all
    selected_delivery := Req.all }

/-- Fixture: a raw row with coordinates present but an unparsable rating and
pickup-minutes text. -/
def rawGood : RawRow :=
  { name := some "Raw One"
    latitude := some 1
    longitude := some 2
    averageRating := Cell.str "N/A"
    priceRange := Cell.str "$"
    asapPickupAvailable := Cell.boolv true
    asapDeliveryAvailable := Cell.na
    asapDeliveryTimeMinutes := Cell.num 12
    asapPickupMinutes := Cell.str "soon"
    displayAddress := none }

/-- Fixture: a raw row missing its longitude, dropped by `load_data`. -/
def rawDropped : RawRow :=
  { rawGood with name := some "Raw Two", longitude := none }

theorem mask_eq_flat (c : Criteria) (r : Row) : rowMask c r = flatClauses c r := by
  unfold rowMask maskAfterDelivery maskAfterPickup maskBase flatClauses
  by_cases h1 : c.selected_pickup = Req.all <;>
    by_cases h2 : c.selected_delivery = Req.all <;>
      by_cases h3 : pyStrip c.search_query = "" <;>
        simp [h1, h2, h3, Bool.and_assoc]

theorem mem_applyFilter {table : List Row} {c : Criteria} {r : Row} :
    r ∈ applyFilter table c ↔ r ∈ table ∧ flatClauses c r = true := by
  unfold applyFilter
  rw [List.mem_filter, mask_eq_flat]

theorem leNA_isSome {v : Option ℚ} {b : ℚ} (h : leNA v b = true) : v.isSome = true := by
  cases v with
  | none => exact absurd h (by simp [leNA])
  | some x => rfl

theorem isinNA_mem {v : Option PriceCat} {l : List PriceCat} (h : isinNA v l = true) :
    ∃ p, v = some p ∧ p ∈ l := by
  cases v with
  | none => exact absurd h (by simp [isinNA])
  | some p => exact ⟨p, rfl, of_decide_eq_true h⟩

theorem flat_clauses_present {c : Criteria} {r : Row} (h : flatClauses c r = true) :
    r.averageRating.isSome = true ∧ r.asapDeliveryTimeMinutes.isSome = true
      ∧ r.asapPickupMinutes.isSome = true
      ∧ ∃ p, r.priceRange = some p ∧ p ∈ c.selected_price := by
  unfold flatClauses at h
  simp only [Bool.and_eq_true] at h
  obtain ⟨⟨⟨⟨⟨⟨h1, h2⟩, h3⟩, h4⟩, -⟩, -⟩, -⟩ := h
  exact ⟨leNA_isSome h1, leNA_isSome h3, leNA_isSome h4, isinNA_mem h2⟩

/-- C1 (counterexample): the subset the source computes differs from the
spec's seven-clause conjunction.  With the whitespace-only query, the spec's
name clause (fires on any non-empty query) rejects the row named `Alpha`,
while the source skips the clause because the stripped query is empty and
keeps the row. -/
theorem blank_query_clause_mismatch :
    blankQueryCrit.search_query = " "
      ∧ applyFilter [spacelessRow] blankQueryCrit = [spacelessRow]
      ∧ List.filter (fun r => specSevenClauses blankQueryCrit r) [spacelessRow] = [] := by
  refine ⟨rfl, by decide, by decide⟩

/-- C1 (amended): the filtered subset is exactly the rows satisfying the
conjunction of the seven clauses, where the name clause fires when the
whitespace-stripped query is non-empty and matches the query within the
row's name rendered as text (an absent name renders as `nan`); `count` is
the number of such rows; on the spec's two example rows and example
criteria the subset is exactly the first row and the count is 1. -/
theorem filtered_matches_clause_conjunction :
    (∀ (table : List Row) (c : Criteria),
        applyFilter table c = List.filter (fun r => flatClauses c r) table
          ∧ (applyFilter table c).length
              = (List.filter (fun r => flatClauses c r) table).length)
      ∧ applyFilter [exRow1, exRow2] exCrit = [exRow1]
      ∧ (applyFilter [exRow1, exRow2] exCrit).length = 1 := by
  refine ⟨fun table c => ?_, by decide, by decide⟩
  have h : applyFilter table c = List.filter (fun r => flatClauses c r) table :=
    List.filter_congr (fun r _ => mask_eq_flat c r)
  exact ⟨h, by rw [h]⟩

/-- C3: an empty price-category selection makes the subset empty, whatever
the other criteria are — the empty set is a real filter, not "no filter". -/
theorem empty_price_selection_empty_subset (table : List Row) (c : Criteria)
    (h : c.selected_price = []) : applyFilter table c = [] := by
  unfold applyFilter
  rw [List.filter_eq_nil_iff]
  intro r _
  rw [mask_eq_flat]
  unfold flatClauses
  cases hv : r.priceRange <;> simp [h, isinNA, hv]

/-- C3 (witness): the empty-selection criteria empty the one-row table. -/
theorem empty_price_selection_empty_subset_check :
    applyFilter [fullRow] { openCrit with selected_price := [] } = [] :=
  empty_price_selection_empty_subset _ _ rfl

/-- C4: a row with an absent rating, absent delivery minutes or absent pickup
minutes fails the corresponding threshold clause and never appears in the
filtered subset. -/
theorem absent_numeric_row_excluded (table : List Row) (c : Criteria) (r : Row)
    (h : r.averageRating = none ∨ r.asapDeliveryTimeMinutes = none
          ∨ r.asapPickupMinutes = none) :
    r ∉ applyFilter table c := by
  intro hmem
  rw [mem_applyFilter] at hmem
  have hp := flat_clauses_present hmem.2
  rcases h with h | h | h
  · rw [h] at hp; simp at hp
  · rw [h] at hp; simp at hp
  · rw [h] at hp
    exact absurd hp.2.2.1 (by simp)

/-- C4 (witness): the fixture row with an absent rating is filtered out even
by criteria that constrain nothing else. -/
theorem absent_numeric_row_excluded_check :
    applyFilter [noneRatingRow] openCrit = [] := by
  have h := absent_numeric_row_excluded [noneRatingRow] openCrit noneRatingRow (Or.inl rfl)
  revert h
  decide

/-- C10: every row of a filtered subset has a present rating, present delivery
minutes and present pickup minutes, and its price category is a member of the
selected set (hence present). -/
theorem filtered_rows_have_present_fields (table : List Row) (c : Criteria) (r : Row)
    (h : r ∈ applyFilter table c) :
    r.averageRating.isSome = true ∧ r.asapDeliveryTimeMinutes.isSome = true
      ∧ r.asapPickupMinutes.isSome = true
      ∧ ∃ p, r.priceRange = some p ∧ p ∈ c.selected_price :=
  flat_clauses_present (mem_applyFilter.mp h).2

/-- C10 (witness): the invariant at the fixture row and criteria. -/
theorem filtered_rows_have_present_fields_check :
    fullRow.averageRating.isSome = true ∧ fullRow.asapDeliveryTimeMinutes.isSome = true
      ∧ fullRow.asapPickupMinutes.isSome = true
      ∧ ∃ p, fullRow.priceRange = some p ∧ p ∈ openCrit.selected_price :=
  filtered_rows_have_present_fields [fullRow] openCrit fullRow (by decide)

/-- C5 (counterexample): a row with an absent name survives a non-empty name
query — `astype(str)` renders the absent name as the text `nan`, which
contains the query `nan`, so the row is kept, contradicting "a row with an
absent name never matches". -/
theorem absent_name_matches_nan_query :
    nanQueryCrit.search_query = "nan"
      ∧ noNameRow.name = none
      ∧ applyFilter [noNameRow] nanQueryCrit = [noNameRow] := by
  refine ⟨rfl, rfl, by decide⟩

/-- C5 (amended): when the whitespace-stripped query is non-empty, a row is in
the filtered subset exactly when it is in the table, passes the other six
clauses, and the query occurs case-insensitively in the row's name rendered as
text — where an absent name renders as the literal string `nan` (so an
absent-name row matches exactly the queries occurring in `nan`); for a present
name this is the case-insensitive substring test, for regex-metacharacter-free
queries. -/
theorem name_clause_astype_substring (table : List Row) (c : Criteria) (r : Row)
    (h : pyStrip c.search_query ≠ "") :
    r ∈ applyFilter table c
      ↔ r ∈ table ∧ firstSixClauses c r = true
          ∧ strContainsCI (astypeStr r.name) c.search_query = true := by
  rw [mem_applyFilter]
  have hsplit : flatClauses c r
      = (firstSixClauses c r && strContainsCI (astypeStr r.name) c.search_query) := by
    unfold flatClauses firstSixClauses
    simp [h]
  rw [hsplit, Bool.and_eq_true]

/-- C5 (witness): the query `cafe` matches the row named `CAFE Luna`
case-insensitively, and the decomposition of the mask holds there. -/
theorem name_clause_astype_substring_check :
    (cafeRow ∈ applyFilter [cafeRow] cafeCrit
        ↔ cafeRow ∈ [cafeRow] ∧ firstSixClauses cafeCrit cafeRow = true
            ∧ strContainsCI (astypeStr cafeRow.name) cafeCrit.search_query = true)
      ∧ cafeRow ∈ applyFilter [cafeRow] cafeCrit :=
  ⟨name_clause_astype_substring [cafeRow] cafeCrit cafeRow (by decide), by decide⟩

theorem le_foldr_max {l : List ℚ} {x : ℚ} (h : x ∈ l) : x ≤ l.foldr max 0 := by
  induction l with
  | nil => cases h
  | cons a t ih =>
    rcases List.mem_cons.mp h with h | h
    · subst h; exact le_max_left _ _
    · exact le_trans (ih h) (le_max_right _ _)

theorem le_colMax {l : List (Option ℚ)} {x : ℚ} (h : some x ∈ l) : x ≤ colMax l := by
  unfold colMax
  exact le_foldr_max (List.mem_filterMap.mpr ⟨some x, h, rfl⟩)

theorem mem_available_prices {data : List Row} {r : Row} {p : PriceCat}
    (hr : r ∈ data) (hp : r.priceRange = some p) : p ∈ available_prices data := by
  unfold available_prices
  rw [List.mem_filter]
  refine ⟨by cases p <;> simp [price_order], ?_⟩
  rw [List.any_eq_true]
  exact ⟨r, hr, by rw [hp]; exact decide_eq_true rfl⟩

/-- C2 (counterexample): the round-trip fails on a table containing a row with
an absent rating: under the "no constraints" criteria the rating clause still
rejects the NaN rating, so the subset loses that row. -/
theorem absent_rating_breaks_roundtrip :
    (applyFilter [noneRatingRow] (noConstraint [noneRatingRow])).length = 0
      ∧ ([noneRatingRow] : List Row).length = 1 := by
  refine ⟨by decide, rfl⟩

/-- C2 (amended): the "no constraints" criteria (empty query, all available
price categories, rating and minute bounds at the data maxima, both
availability requirements `All`) preserve the row count of any table whose
rows all have a present rating, price category, delivery minutes and pickup
minutes; rows with an absent value in one of those four columns are dropped
even by these criteria. -/
theorem no_constraint_criteria_roundtrip (data : List Row)
    (h : ∀ r ∈ data, r.averageRating.isSome = true ∧ r.priceRange.isSome = true
          ∧ r.asapDeliveryTimeMinutes.isSome = true ∧ r.asapPickupMinutes.isSome = true) :
    (applyFilter data (noConstraint data)).length = data.length := by
  unfold applyFilter
  have hself : List.filter (fun r => rowMask (noConstraint data) r) data = data := by
    rw [List.filter_eq_self]
    intro r hr
    rw [mask_eq_flat]
    obtain ⟨h1, h2, h3, h4⟩ := h r hr
    obtain ⟨x, hx⟩ := Option.isSome_iff_exists.mp h1
    obtain ⟨p, hp⟩ := Option.isSome_iff_exists.mp h2
    obtain ⟨d, hd⟩ := Option.isSome_iff_exists.mp h3
    obtain ⟨k, hk⟩ := Option.isSome_iff_exists.mp h4
    have e1 : (noConstraint data).selected_pickup = Req.all := rfl
    have e2 : (noConstraint data).selected_delivery = Req.all := rfl
    have e3 : pyStrip (noConstraint data).search_query = "" := rfl
    unfold flatClauses
    rw [hx, hp, hd, hk]
    simp only [e1, e2, e3, if_pos, leNA, isinNA, Bool.and_true, Bool.and_eq_true,
      decide_eq_true_eq, if_true]
    refine ⟨⟨⟨?_, ?_⟩, ?_⟩, ?_⟩
    · exact le_colMax (List.mem_map.mpr ⟨r, hr, hx⟩)
    · exact mem_available_prices hr hp
    · exact le_colMax (List.mem_map.mpr ⟨r, hr, hd⟩)
    · exact le_colMax (List.mem_map.mpr ⟨r, hr, hk⟩)
  rw [hself]

/-- C2 (witness): the round trip at a one-row table with every column present. -/
theorem no_constraint_criteria_roundtrip_check :
    (applyFilter [fullRow] (noConstraint [fullRow])).length = ([fullRow] : List Row).length :=
  no_constraint_criteria_roundtrip [fullRow] (by decide)

theorem mem_value_counts {l : List (Option Avail)} {v : Avail} {n : ℕ} :
    (v, n) ∈ value_counts l
      ↔ n ≠ 0 ∧ n = (l.filter (fun x => decide (x = some v))).length := by
  unfold value_counts
  by_cases hcmp : (l.filter (fun x => decide (x = some Avail.no))).length
      > (l.filter (fun x => decide (x = some Avail.yes))).length <;>
    cases v <;>
      simp [hcmp, List.mem_filter, Prod.ext_iff] <;> tauto

theorem length_filter_map_col (s : List Row) (f : Row → Option Avail) (v : Avail) :
    ((s.map f).filter (fun x => decide (x = some v))).length
      = (s.filter (fun r => decide (f r = some v))).length := by
  rw [List.filter_map, List.length_map]
  rfl

/-- C6 (counterexample): a filtered subset consisting of one row whose pickup
availability is absent produces an empty `value_counts` table — the aggregate
has no bucket reporting the 1 absent row (NaN entries are dropped). -/
theorem value_counts_reports_no_absent_bucket :
    applyFilter [noPickupRow] openCrit = [noPickupRow]
      ∧ noPickupRow.asapPickupAvailable = none
      ∧ pickup_counts (applyFilter [noPickupRow] openCrit) = [] := by
  refine ⟨by decide, rfl, by decide⟩

/-- C6 (amended): the pickup and delivery availability aggregates are
frequency tables over {Yes, No} only: a pair `(v, n)` is reported exactly when
`n` is the non-zero number of subset rows whose field equals `v`; rows with an
absent field are counted in no bucket. -/
theorem availability_counts_drop_absent (s : List Row) (v : Avail) (n : ℕ) :
    ((v, n) ∈ pickup_counts s
        ↔ n ≠ 0 ∧ n = (s.filter (fun r => decide (r.asapPickupAvailable = some v))).length)
      ∧ ((v, n) ∈ delivery_counts s
        ↔ n ≠ 0 ∧ n = (s.filter (fun r => decide (r.asapDeliveryAvailable = some v))).length) := by
  constructor
  · unfold pickup_counts
    rw [mem_value_counts, length_filter_map_col]
  · unfold delivery_counts
    rw [mem_value_counts, length_filter_map_col]

theorem seriesMean_isSome_of_mem {l : List (Option ℚ)} {x : ℚ} (h : some x ∈ l) :
    ∃ m, seriesMean l = some m := by
  have hne : l.filterMap id ≠ [] :=
    List.ne_nil_of_mem (List.mem_filterMap.mpr ⟨some x, h, rfl⟩)
  unfold seriesMean
  rw [if_neg hne]
  exact ⟨_, rfl⟩

theorem seriesMean_col_isSome {s : List Row} {f : Row → Option ℚ} {r0 : Row}
    (hr0 : r0 ∈ s) (hf : (f r0).isSome = true) :
    ∃ m, seriesMean (s.map f) = some m := by
  obtain ⟨d, hd⟩ := Option.isSome_iff_exists.mp hf
  exact seriesMean_isSome_of_mem (List.mem_map.mpr ⟨r0, hr0, hd⟩)

theorem avgDeliveryMetric_ok {s : List Row}
    (h : ∀ r ∈ s, r.asapDeliveryTimeMinutes.isSome = true) :
    exceptOk (avgDeliveryMetric s) = true := by
  cases s with
  | nil => rfl
  | cons a t =>
    have ha := List.mem_cons_self a t
    obtain ⟨m, hm⟩ := seriesMean_col_isSome ha (h a ha)
    unfold avgDeliveryMetric
    simp only [List.isEmpty_cons, Bool.false_eq_true, if_false, hm]
    rfl

theorem avgPickupMetric_ok {s : List Row}
    (h : ∀ r ∈ s, r.asapPickupMinutes.isSome = true) :
    exceptOk (avgPickupMetric s) = true := by
  cases s with
  | nil => rfl
  | cons a t =>
    have ha := List.mem_cons_self a t
    obtain ⟨m, hm⟩ := seriesMean_col_isSome ha (h a ha)
    unfold avgPickupMetric
    simp only [List.isEmpty_cons, Bool.false_eq_true, if_false, hm]
    rfl

theorem avgRatingMetric_ok (s : List Row) : exceptOk (avgRatingMetric s) = true := by
  unfold avgRatingMetric
  split <;> rfl

/-- C7 (counterexample): on a non-empty subset whose delivery minutes are
absent in every row, the delivery mean is NaN and `int(NaN)` raises a
conversion error — the metric does not return a defined "no data" value
there. -/
theorem all_absent_minutes_mean_raises :
    ([noDeliveryRow] : List Row).length = 1
      ∧ noDeliveryRow.asapDeliveryTimeMinutes = none
      ∧ avgDeliveryMetric [noDeliveryRow]
          = Except.error "cannot convert float NaN to integer" :=
  ⟨rfl, rfl, rfl⟩

/-- C7 (amended): over any subset that the filter actually produces, the three
mean metrics never fail (the mask forces the rating and minute columns present
in every surviving row, so a non-empty filtered subset never has an all-absent
column); the empty subset yields the defined `0` displays; and the mean
excludes absent values from both numerator and denominator (a series has the
same mean as its non-absent entries).  A non-empty subset with an all-absent
minutes column would raise, but no filter output has that shape. -/
theorem mean_metrics_on_filtered_never_fail (table : List Row) (c : Criteria) :
    (exceptOk (avgRatingMetric (applyFilter table c)) = true
        ∧ exceptOk (avgDeliveryMetric (applyFilter table c)) = true
        ∧ exceptOk (avgPickupMetric (applyFilter table c)) = true)
      ∧ (applyFilter table c = [] →
          avgRatingMetric (applyFilter table c) = Except.ok (some 0)
            ∧ avgDeliveryMetric (applyFilter table c) = Except.ok 0
            ∧ avgPickupMetric (applyFilter table c) = Except.ok 0)
      ∧ (∀ l : List (Option ℚ), seriesMean l = seriesMean ((l.filterMap id).map some)) := by
  refine ⟨⟨avgRatingMetric_ok _, ?_, ?_⟩,
    fun hs => by rw [hs]; exact ⟨rfl, rfl, rfl⟩, fun l => ?_⟩
  · exact avgDeliveryMetric_ok
      (fun r hr => (flat_clauses_present (mem_applyFilter.mp hr).2).2.1)
  · exact avgPickupMetric_ok
      (fun r hr => (flat_clauses_present (mem_applyFilter.mp hr).2).2.2.1)
  · have hfm : ((l.filterMap id).map some).filterMap id = l.filterMap id := by
      rw [List.filterMap_map]
      simp
    unfold seriesMean
    rw [hfm]

/-- C7 (witness): the metrics at an empty filter output and a non-empty one. -/
theorem mean_metrics_on_filtered_never_fail_check :
    avgDeliveryMetric (applyFilter [fullRow] { openCrit with selected_price := [] })
        = Except.ok 0
      ∧ exceptOk (avgRatingMetric (applyFilter [fullRow] openCrit)) = true :=
  ⟨((mean_metrics_on_filtered_never_fail [fullRow] _).2.1 (by decide)).2.1,
    (mean_metrics_on_filtered_never_fail [fullRow] openCrit).1.1⟩

theorem length_filterMap_isSome {α : Type} {s : List α} {f : α → Option ℚ}
    (h : ∀ r ∈ s, (f r).isSome = true) : (s.filterMap f).length = s.length := by
  induction s with
  | nil => rfl
  | cons a t ih =>
    obtain ⟨x, hx⟩ := Option.isSome_iff_exists.mp (h a (List.mem_cons_self a t))
    simp [List.filterMap_cons, hx, ih (fun r hr => h r (List.mem_cons_of_mem a hr))]

/-- C8: over a table whose rows all carry coordinates (the load invariant),
the map center of a non-empty filtered subset is the arithmetic mean of its
latitudes paired with the arithmetic mean of its longitudes, and the map
center of an empty subset is the fixed default (29.76, -95.36). -/
theorem map_center_mean_or_default (table : List Row) (c : Criteria)
    (h : ∀ r ∈ table, r.latitude.isSome = true ∧ r.longitude.isSome = true) :
    (applyFilter table c = [] →
        mapCenterLat (applyFilter table c) = some (29.76 : ℚ)
          ∧ mapCenterLong (applyFilter table c) = some (-95.36 : ℚ))
      ∧ (applyFilter table c ≠ [] →
          mapCenterLat (applyFilter table c)
              = some (((applyFilter table c).filterMap (fun r => r.latitude)).sum
                  / ((applyFilter table c).length : ℚ))
            ∧ mapCenterLong (applyFilter table c)
              = some (((applyFilter table c).filterMap (fun r => r.longitude)).sum
                  / ((applyFilter table c).length : ℚ))) := by
  constructor
  · intro hs
    rw [hs]
    exact ⟨rfl, rfl⟩
  · intro hs
    have hsub : ∀ r ∈ applyFilter table c,
        r.latitude.isSome = true ∧ r.longitude.isSome = true :=
      fun r hr => h r (mem_applyFilter.mp hr).1
    have hemp : (applyFilter table c).isEmpty = false := by
      cases hl : applyFilter table c with
      | nil => exact absurd hl hs
      | cons a t => rfl
    have hlat : ((applyFilter table c).filterMap (fun r => r.latitude)).length
        = (applyFilter table c).length :=
      length_filterMap_isSome (fun r hr => (hsub r hr).1)
    have hlong : ((applyFilter table c).filterMap (fun r => r.longitude)).length
        = (applyFilter table c).length :=
      length_filterMap_isSome (fun r hr => (hsub r hr).2)
    have hlen0 : (applyFilter table c).length ≠ 0 := by
      intro h0
      exact hs (List.length_eq_zero.mp h0)
    constructor
    · have hfm : ((applyFilter table c).map (fun r => r.latitude)).filterMap id
          = (applyFilter table c).filterMap (fun r => r.latitude) := by
        rw [List.filterMap_map]
        rfl
      have hne : (applyFilter table c).filterMap (fun r => r.latitude) ≠ [] := by
        intro h0
        apply hlen0
        rw [← hlat, h0]
        rfl
      unfold mapCenterLat seriesMean
      simp only [hemp, Bool.false_eq_true, if_false, hfm]
      rw [if_neg hne, hlat]
    · have hfm : ((applyFilter table c).map (fun r => r.longitude)).filterMap id
          = (applyFilter table c).filterMap (fun r => r.longitude) := by
        rw [List.filterMap_map]
        rfl
      have hne : (applyFilter table c).filterMap (fun r => r.longitude) ≠ [] := by
        intro h0
        apply hlen0
        rw [← hlong, h0]
        rfl
      unfold mapCenterLong seriesMean
      simp only [hemp, Bool.false_eq_true, if_false, hfm]
      rw [if_neg hne, hlong]

/-- C8 (witness): the map center of a concrete two-row filter output, and the
default at an emptied one. -/
theorem map_center_mean_or_default_check :
    (mapCenterLat (applyFilter [rowA, rowB] openCrit)
        = some (((applyFilter [rowA, rowB] openCrit).filterMap (fun r => r.latitude)).sum
            / ((applyFilter [rowA, rowB] openCrit).length : ℚ)))
      ∧ mapCenterLat (applyFilter [rowA] { openCrit with selected_price := [] })
          = some (29.76 : ℚ) :=
  ⟨((map_center_mean_or_default [rowA, rowB] openCrit (by decide)).2 (by decide)).1,
    ((map_center_mean_or_default [rowA] { openCrit with selected_price := [] }
        (by decide)).1 (by decide)).1⟩

/-- C9: every row of the loaded table has both coordinates present (rows
lacking either were dropped), and every raw row with both coordinates present
is retained as its normalization — in particular a row whose rating or
minutes text fails numeric coercion is kept, with that field absent
(`to_numeric` sends non-numeric cells to `none`). -/
theorem load_data_coordinate_invariant (raw : List RawRow) :
    (∀ r ∈ load_data raw, r.latitude.isSome = true ∧ r.longitude.isSome = true)
      ∧ (∀ rr ∈ raw, rr.latitude.isSome = true → rr.longitude.isSome = true →
          normalizeRow rr ∈ load_data raw) := by
  constructor
  · intro r hr
    unfold load_data at hr
    rw [List.mem_map] at hr
    obtain ⟨rr, hrr, hmap⟩ := hr
    rw [List.mem_filter] at hrr
    have hb := hrr.2
    rw [Bool.and_eq_true] at hb
    rw [← hmap]
    exact hb
  · intro rr hrr h1 h2
    unfold load_data
    exact List.mem_map_of_mem _
      (List.mem_filter.mpr ⟨hrr, by rw [Bool.and_eq_true]; exact ⟨h1, h2⟩⟩)

/-- C9 (witness): the raw fixture with coordinates but unparsable rating text
is retained by the loader, with its rating absent. -/
theorem load_data_coordinate_invariant_check :
    normalizeRow rawGood ∈ load_data [rawGood, rawDropped]
      ∧ (normalizeRow rawGood).averageRating = none :=
  ⟨(load_data_coordinate_invariant [rawGood, rawDropped]).2 rawGood (by decide) rfl rfl,
    rfl⟩

end TubesRestaurant
